import Mathlib

/-!
Verification development for the ffmpeg-based mastering CLI
(`src/python/mastering_cli.py`).

The Python program is embedded shallowly:

* Python strings are `String` / `List Char` (both are sequences of unicode
  code points, matching Python string indexing).
* Python floats are idealized as exact numbers: the CLI knobs are modelled
  over `ℝ` (because `db_to_amplitude` takes a real power of 10) and the
  values parsed out of JSON text over `ℚ`.  Bit-for-bit IEEE-754 rounding
  artifacts are outside the model.
* Fallible Python code (raising) is modelled with `Except String`.
* The two external binaries are modelled by a `World` oracle mapping each
  command line to a process result; every `run_subprocess` call is logged
  in a trace so that invocation counts can be stated.

Definitions keep the names of the Python functions they embed.
-/

namespace MasteringCli

/-! ## Python string helpers -/

/-- The whitespace set recognised by Python `str.strip()` and `float()`. -/
def pyIsSpace (c : Char) : Bool :=
  c = ' ' ∨ c = '\t' ∨ c = '\n' ∨ c = '\r' ∨ c = '\x0b' ∨ c = '\x0c'

/-- Python `str.strip()` with no arguments. -/
def pyStrip (s : String) : String :=
  String.mk (((s.data.dropWhile pyIsSpace).reverse.dropWhile pyIsSpace).reverse)

/-- Python `s[:n]` for `n ≥ 0`. -/
def takeChars (n : ℕ) (s : String) : String :=
  String.mk (s.data.take n)

/-- Python `s[-n:]` for `n > 0` (the last `n` characters, or all of `s`
when it is shorter than `n`). -/
def lastChars (n : ℕ) (s : String) : String :=
  String.mk (s.data.drop (s.data.length - n))

/-- Python `str.find(c)` for a single character, `None` instead of `-1`. -/
def pyFind (cs : List Char) (c : Char) : Option ℕ :=
  cs.findIdx? (fun d => d = c)

/-- Python `str.rfind(c)` for a single character, `None` instead of `-1`:
the index of the last occurrence of `c`. -/
def pyRfind (cs : List Char) (c : Char) : Option ℕ :=
  (cs.reverse.findIdx? (fun d => d = c)).map (fun i => cs.length - 1 - i)

/-- `Path(p).name`: the part of the path after the final slash. -/
def basename (p : String) : String :=
  match pyRfind p.data '/' with
  | none => p
  | some i => String.mk (p.data.drop (i + 1))

/-! ## Python / JSON values

`JValue` is the universe of values produced by `json.loads` on the JSON
fragment this program consumes.  `json.loads` maps JSON numbers without a
fraction or exponent to Python `int` and the rest to Python `float`; the
distinction matters for truthiness and string rendering, so it is kept. -/

inductive JValue where
  | jnull
  | jbool (b : Bool)
  | jint (n : ℤ)
  | jfloat (q : ℚ)
  | jstr (s : String)
  | jarr (xs : List JValue)
  | jobj (kvs : List (String × JValue))
deriving Repr

/-- Python truthiness of a `JValue`. -/
def jTruthy : JValue → Bool
  | .jnull => false
  | .jbool b => b
  | .jint n => decide (n ≠ 0)
  | .jfloat q => decide (q ≠ 0)
  | .jstr s => decide (s.data ≠ [])
  | .jarr xs => !xs.isEmpty
  | .jobj kvs => !kvs.isEmpty

/-! ## A model of `json.loads`

Recursive-descent parser over `List Char` with explicit fuel (the input
length suffices, since every recursive step consumes at least one
character).  It covers the JSON fragment ffmpeg/ffprobe emit: objects,
arrays, strings with the simple backslash escapes, numbers, booleans and
null.  `\uXXXX` escapes and the strict leading-zero rule for numbers are
not modelled.  Error strings are abbreviated forms of Python
`JSONDecodeError` messages; no theorem depends on their exact text. -/

/-- JSON whitespace. -/
def jsonSkipWs (cs : List Char) : List Char :=
  cs.dropWhile (fun c => c = ' ' ∨ c = '\t' ∨ c = '\n' ∨ c = '\r')

/-- Body of a JSON string after the opening quote: returns the decoded
characters and the remainder after the closing quote. -/
def jsonStringBody : List Char → Option (List Char × List Char)
  | [] => none
  | '"' :: rest => some ([], rest)
  | '\\' :: e :: rest =>
    (match e with
     | '"' => some '"'
     | '\\' => some '\\'
     | '/' => some '/'
     | 'n' => some '\n'
     | 't' => some '\t'
     | 'r' => some '\r'
     | 'b' => some (Char.ofNat 8)
     | 'f' => some (Char.ofNat 12)
     | _ => none).bind (fun c =>
      (jsonStringBody rest).map (fun (br : List Char × List Char) => (c :: br.1, br.2)))
  | c :: rest =>
    if c = '"' ∨ c = '\\' then none
    else (jsonStringBody rest).map (fun br => (c :: br.1, br.2))

/-- Digits of a numeral and the remaining input. -/
def takeDigits (cs : List Char) : List Char × List Char :=
  (cs.takeWhile Char.isDigit, cs.dropWhile Char.isDigit)

/-- Numeric value of a digit string. -/
def digitsToNat (ds : List Char) : ℕ :=
  ds.foldl (fun n c => 10 * n + (c.toNat - 48)) 0

/-- Optional exponent part `e`/`E` sign digits; returns `(exponent, rest)`,
failing when an exponent marker is present without digits. -/
def jsonExpPart : List Char → Option (ℤ × List Char)
  | [] => some (0, [])
  | c :: rest =>
    if c = 'e' ∨ c = 'E' then
      let se : ℤ × List Char :=
        match rest with
        | '-' :: r2 => (-1, r2)
        | '+' :: r2 => (1, r2)
        | r2 => (1, r2)
      let dr := takeDigits se.2
      if dr.1 = [] then none else some (se.1 * (digitsToNat dr.1 : ℤ), dr.2)
    else some (0, c :: rest)

/-- Assemble the rational value `sign * (ip . fp) * 10 ^ ex`. -/
def assembleNumber (sign : ℤ) (ip fp : List Char) (ex : ℤ) : ℚ :=
  (sign : ℚ) * ((digitsToNat ip : ℚ) + (digitsToNat fp : ℚ) / 10 ^ fp.length)
    * (10 : ℚ) ^ ex

/-- A JSON number token: integer literals become `jint`, anything with a
fraction or exponent becomes `jfloat`. -/
def jsonNumber (cs : List Char) : Option (JValue × List Char) :=
  let sc : ℤ × List Char :=
    match cs with
    | '-' :: rest => (-1, rest)
    | rest => (1, rest)
  let ipr := takeDigits sc.2
  if ipr.1 = [] then none
  else
    match ipr.2 with
    | '.' :: afterDot =>
      let fr := takeDigits afterDot
      if fr.1 = [] then none
      else
        match jsonExpPart fr.2 with
        | none => none
        | some exr => some (.jfloat (assembleNumber sc.1 ipr.1 fr.1 exr.1), exr.2)
    | 'e' :: _ =>
      match jsonExpPart ipr.2 with
      | none => none
      | some exr => some (.jfloat (assembleNumber sc.1 ipr.1 [] exr.1), exr.2)
    | 'E' :: _ =>
      match jsonExpPart ipr.2 with
      | none => none
      | some exr => some (.jfloat (assembleNumber sc.1 ipr.1 [] exr.1), exr.2)
    | rest => some (.jint (sc.1 * (digitsToNat ipr.1 : ℤ)), rest)

mutual

/-- One JSON value; fuel bounds the recursion depth. -/
def jsonValueF : ℕ → List Char → Option (JValue × List Char)
  | 0, _ => none
  | fuel + 1, cs =>
    match jsonSkipWs cs with
    | [] => none
    | '"' :: rest => (jsonStringBody rest).map (fun br => (.jstr (String.mk br.1), br.2))
    | '{' :: rest =>
      (match jsonSkipWs rest with
       | '}' :: r2 => some (.jobj [], r2)
       | _ => (jsonMembersF fuel rest).map (fun mr => (.jobj mr.1, mr.2)))
    | '[' :: rest =>
      (match jsonSkipWs rest with
       | ']' :: r2 => some (.jarr [], r2)
       | _ => (jsonElementsF fuel rest).map (fun er => (.jarr er.1, er.2)))
    | 't' :: 'r' :: 'u' :: 'e' :: rest => some (.jbool true, rest)
    | 'f' :: 'a' :: 'l' :: 's' :: 'e' :: rest => some (.jbool false, rest)
    | 'n' :: 'u' :: 'l' :: 'l' :: rest => some (.jnull, rest)
    | other => jsonNumber other

/-- One or more `"key": value` members followed by `}`. -/
def jsonMembersF : ℕ → List Char → Option (List (String × JValue) × List Char)
  | 0, _ => none
  | fuel + 1, cs =>
    match jsonSkipWs cs with
    | '"' :: rest =>
      match jsonStringBody rest with
      | none => none
      | some kr =>
        match jsonSkipWs kr.2 with
        | ':' :: r2 =>
          match jsonValueF fuel r2 with
          | none => none
          | some vr =>
            match jsonSkipWs vr.2 with
            | ',' :: r3 =>
              (jsonMembersF fuel r3).map
                (fun mr => ((String.mk kr.1, vr.1) :: mr.1, mr.2))
            | '}' :: r3 => some ([(String.mk kr.1, vr.1)], r3)
            | _ => none
        | _ => none
    | _ => none

/-- One or more array elements followed by `]`. -/
def jsonElementsF : ℕ → List Char → Option (List JValue × List Char)
  | 0, _ => none
  | fuel + 1, cs =>
    match jsonValueF fuel cs with
    | none => none
    | some vr =>
      match jsonSkipWs vr.2 with
      | ',' :: r2 =>
        (jsonElementsF fuel r2).map (fun er => (vr.1 :: er.1, er.2))
      | ']' :: r2 => some ([vr.1], r2)
      | _ => none

end

/-- Python `json.loads`. -/
def json_loads (s : String) : Except String JValue :=
  match jsonValueF (s.length + 1) s.data with
  | none => .error "Expecting value"
  | some vr =>
    if jsonSkipWs vr.2 = [] then .ok vr.1 else .error "Extra data"

/-! ## `float()`, `safe_float`, `round` and `dict.get` -/

/-- Python `float()` applied to a string: optional surrounding whitespace,
an optional sign, then `digits [. digits] [e sign digits]` where at least
one mantissa digit is present.  The nonfinite spellings (`inf`, `nan`) and
digit-group underscores accepted by Python are outside the model. -/
def pyFloatOfString (s : String) : Option ℚ :=
  let cs := ((s.data.dropWhile pyIsSpace).reverse.dropWhile pyIsSpace).reverse
  let sc : ℚ × List Char :=
    match cs with
    | '-' :: rest => (-1, rest)
    | '+' :: rest => (1, rest)
    | rest => (1, rest)
  let ipr := takeDigits sc.2
  let fpr : List Char × List Char :=
    match ipr.2 with
    | '.' :: afterDot => takeDigits afterDot
    | rest => ([], rest)
  if ipr.1 = [] ∧ fpr.1 = [] then none
  else
    match jsonExpPart fpr.2 with
    | none => none
    | some exr =>
      if exr.2 = [] then
        some (sc.1 * ((digitsToNat ipr.1 : ℚ) + (digitsToNat fpr.1 : ℚ) / 10 ^ fpr.1.length)
          * (10 : ℚ) ^ exr.1)
      else none

/-- Python `float()` on a `JValue`; numbers and booleans convert, numeric
strings are parsed, everything else raises (`TypeError` / `ValueError`). -/
def pyFloat : JValue → Except String ℚ
  | .jint n => .ok (n : ℚ)
  | .jfloat q => .ok q
  | .jbool b => .ok (if b then 1 else 0)
  | .jstr s =>
    match pyFloatOfString s with
    | some q => .ok q
    | none => .error ("ValueError: could not convert string to float: " ++ s)
  | .jnull => .error "TypeError: float() argument is None"
  | .jarr _ => .error "TypeError: float() argument is a list"
  | .jobj _ => .error "TypeError: float() argument is a dict"

/-- `safe_float` from the source: `float(value)`, with `TypeError` and
`ValueError` (the only exceptions `float` raises here) turned into `None`. -/
def safe_float (value : JValue) : Option ℚ :=
  (pyFloat value).toOption

/-- Round to the nearest integer, ties to even — Python `round(x)`
(on the idealized exact value). -/
def roundHalfEven (x : ℚ) : ℤ :=
  let f := ⌊x⌋
  let r := x - (f : ℚ)
  if r < 1 / 2 then f
  else if 1 / 2 < r then f + 1
  else if f % 2 = 0 then f else f + 1

/-- Python `round(x, 1)` on the idealized exact value. -/
def pyRound1 (x : ℚ) : ℚ :=
  (roundHalfEven (x * 10) : ℚ) / 10

/-- Python `d.get(k)` (returning `None` when the key is absent) on a
`JValue`, raising `AttributeError` when the receiver is not a dict.
Later duplicate keys shadow earlier ones, as in a Python dict built by
`json.loads`. -/
def py_get : JValue → String → Except String JValue
  | .jobj kvs, k => .ok ((kvs.reverse.lookup k).getD .jnull)
  | _, _ => .error "AttributeError: no attribute get"

/-! ## `trim_log` and `parse_loudnorm_json` -/

/-- `trim_log` from the source with its `limit` left at the default 600
(no caller overrides it): strip the log, then keep the last 600
characters. -/
def trim_log (log : String) : String :=
  lastChars 600 (pyStrip log)

/-- `parse_loudnorm_json` from the source: take the span from
`stderr_output.rfind("\x7b")` to `stderr_output.rfind("\x7d")` inclusive, raise
when either brace is missing or the end does not lie strictly after the
start, and JSON-parse the snippet. -/
def parse_loudnorm_json (stderr_output : String) : Except String JValue :=
  match pyRfind stderr_output.data '{', pyRfind stderr_output.data '}' with
  | some start, some stop =>
    if stop ≤ start then .error "Unable to parse loudnorm output."
    else json_loads (String.mk ((stderr_output.data.drop start).take (stop + 1 - start)))
  | _, _ => .error "Unable to parse loudnorm output."

/-- Follows the claim text rather than the source: the span from the FIRST
`\x7b` (`str.find`) to the last `\x7d`.  Used only to compare against
`parse_loudnorm_json`. -/
def parse_loudnorm_json_claimed (stderr_output : String) : Except String JValue :=
  match pyFind stderr_output.data '{', pyRfind stderr_output.data '}' with
  | some start, some stop =>
    if stop ≤ start then .error "Unable to parse loudnorm output."
    else json_loads (String.mk ((stderr_output.data.drop start).take (stop + 1 - start)))
  | _, _ => .error "Unable to parse loudnorm output."

/-! ## Rendering values back to text

`renderPyFloat` renders the rationals this program produces (all decimal)
the way Python prints the corresponding floats; rationals without a finite
decimal expansion fall back to `toString` (no value of this program hits
that case, and no theorem depends on it). -/

/-- Decimal rendering of a rational, in the style of Python float `repr`. -/
def renderPyFloat (q : ℚ) : String :=
  match (List.range 18).find? (fun k => (10 : ℕ) ^ k % q.den = 0) with
  | some 0 => toString q.num ++ ".0"
  | some k =>
    let m := (q.num.natAbs * (10 ^ k / q.den))
    let ip := m / 10 ^ k
    let fp := m % 10 ^ k
    let fs := toString fp
    (if q < 0 then "-" else "") ++ toString ip ++ "." ++
      String.mk (List.replicate (k - fs.length) '0') ++ fs
  | none => toString q

/-- Python `str()` / f-string interpolation of a `JValue`.  Containers and
`None` never reach an f-string in this program, so their renderings are
nominal. -/
def pyStr : JValue → String
  | .jstr s => s
  | .jint n => toString n
  | .jfloat q => renderPyFloat q
  | .jbool b => if b then "True" else "False"
  | .jnull => "None"
  | .jarr _ => "[...]"
  | .jobj _ => "\x7b...\x7d"

/-! ## The external-process world -/

/-- The observable result of `subprocess.run` (the `CompletedProcess`
dataclass of the source). -/
structure CompletedProcess where
  returncode : ℤ
  stdout : String
  stderr : String

/-- The host environment: `which` answers `shutil.which` (is the binary on
PATH), `run` maps a command line to its process result.  `FFMPEG_BIN` /
`FFPROBE_BIN` are modelled at their defaults (no environment override). -/
structure World where
  which : String → Bool
  run : List String → CompletedProcess

def FFMPEG_BIN : String := "ffmpeg"

def FFPROBE_BIN : String := "ffprobe"

/-- The sequence of command lines handed to `run_subprocess`. -/
abbrev Trace := List (List String)

/-- The loudness-measurement command of `measure_audio`. -/
def loudnorm_cmd (audio_path : String) : List String :=
  [FFMPEG_BIN, "-hide_banner", "-nostdin", "-i", audio_path,
   "-af", "loudnorm=I=-14:TP=-1.0:LRA=9:print_format=json", "-f", "null", "-"]

/-- The probing command of `probe_stream`. -/
def probe_cmd (audio_path : String) : List String :=
  [FFPROBE_BIN, "-v", "error", "-select_streams", "a:0", "-show_entries",
   "stream=sample_rate,channels,bits_per_sample,bits_per_raw_sample,sample_fmt",
   "-of", "json", audio_path]

/-- The metrics record `measure_audio` emits.  Its fields are exactly the
keys of the Python dict literal. -/
structure Metrics where
  lufs : Option ℚ
  truePeak : Option ℚ
  crest : Option ℚ
  sampleRate : Option ℚ
  bitDepth : Option String
  notes : String
deriving Repr, DecidableEq

/-- `resolve_bit_depth` from the source: first truthy of
`bits_per_sample` / `bits_per_raw_sample` rendered as `N-bit`, else a
reading of `sample_fmt`, else `None`. -/
def resolve_bit_depth (probe : JValue) : Except String (Option String) :=
  match py_get probe "bits_per_sample" with
  | .error e => .error e
  | .ok v1 =>
    if jTruthy v1 then .ok (some (pyStr v1 ++ "-bit"))
    else
      match py_get probe "bits_per_raw_sample" with
      | .error e => .error e
      | .ok v2 =>
        if jTruthy v2 then .ok (some (pyStr v2 ++ "-bit"))
        else
          match py_get probe "sample_fmt" with
          | .error e => .error e
          | .ok sf =>
            match sf with
            | .jstr s =>
              .ok (if s.startsWith "fl" then some "32-bit float"
                   else if s.startsWith "s16" then some "16-bit"
                   else if s.startsWith "s24" then some "24-bit"
                   else if s.startsWith "s32" then some "32-bit"
                   else none)
            | _ => .ok none

/-- The tail of `probe_stream` after `json.loads`:
`streams = data.get("streams") or []` followed by
`streams[0] if streams else \x7b\x7d`, with the Python indexing semantics per
value shape (head of a list, first character of a string, `KeyError` /
`TypeError` otherwise). -/
def first_stream (data : JValue) : Except String JValue :=
  match py_get data "streams" with
  | .error e => .error e
  | .ok sv =>
    let streams := if jTruthy sv then sv else .jarr []
    if jTruthy streams then
      match streams with
      | .jarr (x :: _) => .ok x
      | .jstr s => .ok (.jstr (String.mk (s.data.take 1)))
      | .jobj _ => .error "KeyError: 0"
      | _ => .error "TypeError: object is not subscriptable"
    else .ok (.jobj [])

/-- `probe_stream` from the source, also returning the trace of spawned
command lines. -/
def probe_stream (w : World) (audio_path : String) :
    Except String JValue × Trace :=
  if (w.run (probe_cmd audio_path)).returncode ≠ 0 then
    (.error ("ffprobe failed for " ++ audio_path ++ ": " ++
       trim_log (w.run (probe_cmd audio_path)).stderr),
     [probe_cmd audio_path])
  else
    match json_loads (if (w.run (probe_cmd audio_path)).stdout = "" then "\x7b\x7d"
        else (w.run (probe_cmd audio_path)).stdout) with
    | .error e => (.error e, [probe_cmd audio_path])
    | .ok data => (first_stream data, [probe_cmd audio_path])

/-- The pure tail of `measure_audio`, from the parsed loudnorm stats and
the probed stream record to the metrics dict.  `crest` is computed from
the unrounded values; a truthy but non-numeric `sample_rate` raises, as
`float(sr)` does. -/
def metrics_from (stats probe : JValue) (audio_path tag : String) :
    Except String Metrics :=
  match py_get stats "input_i" with
  | .error e => .error e
  | .ok vI =>
    match py_get stats "input_tp" with
    | .error e => .error e
    | .ok vT =>
      let lufs := safe_float vI
      let true_peak := safe_float vT
      let crest : Option ℚ :=
        match lufs, true_peak with
        | some l, some t => some (pyRound1 (t - l))
        | _, _ => none
      let notes := tag ++ " metrics via ffmpeg loudnorm (" ++ basename audio_path ++ ")"
      if jTruthy probe then
        match py_get probe "sample_rate" with
        | .error e => .error e
        | .ok sr =>
          match (if jTruthy sr then
                   (pyFloat sr).map (fun x => some (pyRound1 (x / 1000)))
                 else .ok none) with
          | .error e => .error e
          | .ok sample_rate =>
            match resolve_bit_depth probe with
            | .error e => .error e
            | .ok bit_depth =>
              .ok ⟨lufs.map pyRound1, true_peak.map pyRound1, crest,
                   sample_rate, bit_depth, notes⟩
      else
        .ok ⟨lufs.map pyRound1, true_peak.map pyRound1, crest, none, none, notes⟩

/-- `measure_audio` from the source, also returning the trace of spawned
command lines. -/
def measure_audio (w : World) (audio_path tag : String) :
    Except String Metrics × Trace :=
  if (w.run (loudnorm_cmd audio_path)).returncode ≠ 0 then
    (.error ("ffmpeg loudnorm failed: " ++ trim_log (w.run (loudnorm_cmd audio_path)).stderr),
     [loudnorm_cmd audio_path])
  else
    match parse_loudnorm_json (w.run (loudnorm_cmd audio_path)).stderr with
    | .error e => (.error e, [loudnorm_cmd audio_path])
    | .ok stats =>
      match probe_stream w audio_path with
      | (.error e, t) => (.error e, loudnorm_cmd audio_path :: t)
      | (.ok probe, t) =>
        (metrics_from stats probe audio_path tag, loudnorm_cmd audio_path :: t)

/-- `ensure_binaries` from the source. -/
def ensure_binaries (w : World) : Except String Unit :=
  if w.which FFMPEG_BIN then
    if w.which FFPROBE_BIN then .ok ()
    else .error ("Required binary \x27" ++ FFPROBE_BIN ++
      "\x27 was not found on PATH. Install ffmpeg/ffprobe or set FFMPEG_BIN / FFPROBE_BIN.")
  else .error ("Required binary \x27" ++ FFMPEG_BIN ++
    "\x27 was not found on PATH. Install ffmpeg/ffprobe or set FFMPEG_BIN / FFPROBE_BIN.")

/-! ## JSON output -/

/-- `json.dumps` escaping of a string (the characters this program can
place in its output strings). -/
def jsonEscapeChar (c : Char) : List Char :=
  if c = '"' then ['\\', '"']
  else if c = '\\' then ['\\', '\\']
  else if c = '\n' then ['\\', 'n']
  else if c = '\t' then ['\\', 't']
  else if c = '\r' then ['\\', 'r']
  else [c]

/-- `json.dumps` of a string value. -/
def jsonDumpStr (s : String) : String :=
  "\"" ++ String.mk (s.data.flatMap jsonEscapeChar) ++ "\""

/-- `json.dumps` of an optional number (Python float or `None`). -/
def jsonDumpOptNum : Option ℚ → String
  | none => "null"
  | some q => renderPyFloat q

/-- `json.dumps` of an optional string. -/
def jsonDumpOptStr : Option String → String
  | none => "null"
  | some s => jsonDumpStr s

/-- `json.dumps` of the metrics dict (default separators). -/
def metrics_json (m : Metrics) : String :=
  "\x7b\"lufs\": " ++ jsonDumpOptNum m.lufs ++
  ", \"truePeak\": " ++ jsonDumpOptNum m.truePeak ++
  ", \"crest\": " ++ jsonDumpOptNum m.crest ++
  ", \"sampleRate\": " ++ jsonDumpOptNum m.sampleRate ++
  ", \"bitDepth\": " ++ jsonDumpOptStr m.bitDepth ++
  ", \"notes\": " ++ jsonDumpStr m.notes ++ "\x7d"

/-! ## `main` -/

/-- What one invocation of `main` observably does: the exit status, the
lines printed to stdout, and the lines printed to stderr. -/
structure MainOutcome where
  exitCode : ℕ
  stdout : List String
  stderr : List String
deriving Repr, DecidableEq

/-- The `except` branch of `main`: print the prefixed message to stderr
and `sys.exit(1)`. -/
def fail_outcome (e : String) : MainOutcome :=
  ⟨1, [], ["[mastering_cli] " ++ e]⟩

/-- `main` in `analyze` mode, from `ensure_binaries` through printing the
metrics JSON, with the trace of spawned command lines. -/
def main_analyze (w : World) (input_file tag : String) : MainOutcome × Trace :=
  match ensure_binaries w with
  | .error e => (fail_outcome e, [])
  | .ok _ =>
    match measure_audio w input_file tag with
    | (.error e, t) => (fail_outcome e, t)
    | (.ok m, t) => (⟨0, ["\x7b\"metrics\": " ++ metrics_json m ++ "\x7d"], []⟩, t)

/-! ## The mastering chain

The numeric knobs of the `master` sub-command, as parsed by argparse
(floats idealized as reals, paths and labels as strings). -/

structure MasterArgs where
  input_file : String
  output_file : String
  target_lufs : ℝ
  true_peak : ℝ
  input_trim_db : ℝ
  comp_threshold : ℝ
  comp_ratio : ℝ
  attack : ℝ
  release : ℝ
  eq_low_hz : ℝ
  eq_low_db : ℝ
  eq_low_q : ℝ
  eq_high_hz : ℝ
  eq_high_db : ℝ
  eq_high_q : ℝ
  limiter_ceiling : ℝ
  limiter_lookahead : ℝ
  limiter_release : ℝ
  platform : String
  profile_name : String

/-- Digit rendering of a scaled integer `n / 10 ^ prec` with exactly
`prec` digits after the point. -/
def renderFixed (n : ℤ) (prec : ℕ) : String :=
  let m := n.natAbs
  let ip := m / 10 ^ prec
  let fp := m % 10 ^ prec
  let fs := toString fp
  (if n < 0 then "-" else "") ++ toString ip ++ "." ++
    String.mk (List.replicate (prec - fs.length) '0') ++ fs

/-- Python `f"\x7bx:.Nf\x7d"` on the idealized exact value: round `x * 10 ^ N`
to the nearest integer and render.  (Python rounds the underlying double
half-to-even; tie digits are outside the model and outside every claim.) -/
noncomputable def fmtFixed (prec : ℕ) (x : ℝ) : String :=
  renderFixed (round (x * (10 : ℝ) ^ prec)) prec

/-- `db_to_amplitude` from the source: `max(10 ** (value / 20.0), 1e-6)`. -/
noncomputable def db_to_amplitude (value : ℝ) : ℝ :=
  max ((10 : ℝ) ^ (value / 20)) 1e-6

/-- `max(args.comp_ratio, 1.0)`. -/
noncomputable def comp_ratio_val (args : MasterArgs) : ℝ :=
  max args.comp_ratio 1.0

/-- `attack = max(args.attack / 1000.0, 0.001)`. -/
noncomputable def comp_attack_val (args : MasterArgs) : ℝ :=
  max (args.attack / 1000) 0.001

/-- `release = max(args.release / 1000.0, 0.005)`. -/
noncomputable def comp_release_val (args : MasterArgs) : ℝ :=
  max (args.release / 1000) 0.005

/-- `max(args.eq_low_hz, 20.0)`. -/
noncomputable def eq_low_hz_val (args : MasterArgs) : ℝ :=
  max args.eq_low_hz 20.0

/-- `max(args.eq_low_q, 0.1)`. -/
noncomputable def eq_low_q_val (args : MasterArgs) : ℝ :=
  max args.eq_low_q 0.1

/-- `max(args.eq_high_hz, 200.0)`. -/
noncomputable def eq_high_hz_val (args : MasterArgs) : ℝ :=
  max args.eq_high_hz 200.0

/-- `max(args.eq_high_q, 0.1)`. -/
noncomputable def eq_high_q_val (args : MasterArgs) : ℝ :=
  max args.eq_high_q 0.1

/-- `limiter_release = max(args.limiter_release / 1000.0, 0.005)`. -/
noncomputable def limiter_release_val (args : MasterArgs) : ℝ :=
  max (args.limiter_release / 1000) 0.005

/-- The `volume` filter string. -/
noncomputable def volume_filter (args : MasterArgs) : String :=
  "volume=" ++ fmtFixed 3 args.input_trim_db ++ "dB"

/-- The `acompressor` filter string. -/
noncomputable def acompressor_filter (args : MasterArgs) : String :=
  "acompressor=threshold=" ++ fmtFixed 6 (db_to_amplitude args.comp_threshold) ++
  ":ratio=" ++ fmtFixed 3 (comp_ratio_val args) ++
  ":attack=" ++ fmtFixed 4 (comp_attack_val args) ++
  ":release=" ++ fmtFixed 4 (comp_release_val args) ++
  ":makeup=0.0:knee=2.0"

/-- The `bass` filter string. -/
noncomputable def bass_filter (args : MasterArgs) : String :=
  "bass=g=" ++ fmtFixed 2 args.eq_low_db ++
  ":f=" ++ fmtFixed 1 (eq_low_hz_val args) ++
  ":width_type=q:width=" ++ fmtFixed 3 (eq_low_q_val args)

/-- The `treble` filter string. -/
noncomputable def treble_filter (args : MasterArgs) : String :=
  "treble=g=" ++ fmtFixed 2 args.eq_high_db ++
  ":f=" ++ fmtFixed 1 (eq_high_hz_val args) ++
  ":width_type=q:width=" ++ fmtFixed 3 (eq_high_q_val args)

/-- The `alimiter` filter string. -/
noncomputable def alimiter_filter (args : MasterArgs) : String :=
  "alimiter=limit=" ++ fmtFixed 6 (db_to_amplitude args.limiter_ceiling) ++
  ":level=1.0:attack=0.001:release=" ++ fmtFixed 4 (limiter_release_val args)

/-- The list `filters` built by `build_filter_chain`.

The source line gating the volume filter,
`if args.input_trim_db := getattr(args, "input_trim_db", None):`,
is not legal Python (an assignment-expression target must be a plain
name), so the shipped module fails to load; see the `C2` theorems.  The
definition models the evident intent of that line: test the truthiness of
`input_trim_db` (argparse always supplies the float, default `0.0`), then
the inner `abs(float(...)) > 0.01` guard. -/
noncomputable def filter_list (args : MasterArgs) : List String :=
  (if args.input_trim_db ≠ 0 then
     (if |args.input_trim_db| > 0.01 then [volume_filter args] else [])
   else []) ++
  [acompressor_filter args, bass_filter args, treble_filter args, alimiter_filter args]

/-- `build_filter_chain` from the source: `",".join(filters)`. -/
noncomputable def build_filter_chain (args : MasterArgs) : String :=
  String.intercalate "," (filter_list args)

/-- The ffmpeg command line of `render_master`. -/
noncomputable def render_cmd (args : MasterArgs) : List String :=
  [FFMPEG_BIN, "-hide_banner", "-y", "-nostdin", "-i", args.input_file,
   "-acodec", "pcm_s24le", "-af", build_filter_chain args, args.output_file]

/-- `render_master` from the source, with the trace of spawned command
lines.  On a non-zero exit status it raises with the FIRST 600 characters
of the stripped stderr (`result.stderr.strip()[:600]`). -/
noncomputable def render_master (w : World) (args : MasterArgs) :
    Except String Unit × Trace :=
  if (w.run (render_cmd args)).returncode ≠ 0 then
    (.error ("ffmpeg mastering failed: " ++
       takeChars 600 (pyStrip (w.run (render_cmd args)).stderr)),
     [render_cmd args])
  else (.ok (), [render_cmd args])

/-- The JSON object `main` prints after a successful master run. -/
def master_json (args : MasterArgs) (m : Metrics) : String :=
  "\x7b\"finalMetrics\": " ++ metrics_json m ++
  ", \"outputFile\": " ++ jsonDumpStr args.output_file ++
  ", \"platform\": " ++ jsonDumpStr args.platform ++
  ", \"profileName\": " ++ jsonDumpStr args.profile_name ++ "\x7d"

/-- `main` in `master` mode: `ensure_binaries`, render, measure the
rendered file, print.  The `mkdir(parents=True, exist_ok=True)` call on
the output directory is a filesystem effect with no bearing on any claim
and is modelled as a no-op. -/
noncomputable def main_master (w : World) (args : MasterArgs) : MainOutcome × Trace :=
  match ensure_binaries w with
  | .error e => (fail_outcome e, [])
  | .ok _ =>
    match render_master w args with
    | (.error e, t) => (fail_outcome e, t)
    | (.ok _, t0) =>
      match measure_audio w args.output_file "mastered" with
      | (.error e, t1) => (fail_outcome e, t0 ++ t1)
      | (.ok m, t1) => (⟨0, [master_json args m], []⟩, t0 ++ t1)

/-! ## Helper lemmas -/

theorem findIdx?_last_aux (c : Char) (l₁ l₂ : List Char) (h : c ∉ l₁) :
    List.findIdx? (fun d => decide (d = c)) (l₁ ++ c :: l₂) = some l₁.length := by
  induction l₁ with
  | nil => simp
  | cons x xs ih =>
    have hxc : ¬ x = c := fun hh => h (by simp [hh])
    have htail : c ∉ xs := fun hh => h (List.mem_cons_of_mem _ hh)
    simp [List.findIdx?_cons, hxc, List.findIdx?_succ, ih htail]

/-- `rfind` on `l₁ ++ c :: l₂` finds the `c` shown whenever no later one
exists. -/
theorem pyRfind_append_last (l₁ l₂ : List Char) (c : Char) (h : c ∉ l₂) :
    pyRfind (l₁ ++ c :: l₂) c = some l₁.length := by
  unfold pyRfind
  have hrev : (l₁ ++ c :: l₂).reverse = l₂.reverse ++ c :: l₁.reverse := by
    simp [List.reverse_append]
  have hmem : c ∉ l₂.reverse := by simpa using h
  rw [hrev, findIdx?_last_aux c _ _ hmem]
  simp only [Option.map_some', List.length_append, List.length_cons, List.length_reverse,
    Option.some.injEq]
  omega

theorem pyStrip_within (s : String) : (pyStrip s).data <:+: s.data := by
  have h1 : s.data.dropWhile pyIsSpace <:+ s.data := List.dropWhile_suffix pyIsSpace
  have h2 : ((s.data.dropWhile pyIsSpace).reverse.dropWhile pyIsSpace).reverse <+:
      s.data.dropWhile pyIsSpace := by
    rw [← List.reverse_suffix]
    simpa using List.dropWhile_suffix (l := (s.data.dropWhile pyIsSpace).reverse) pyIsSpace
  exact h2.isInfix.trans h1.isInfix

theorem trim_log_length_le (log : String) : (trim_log log).length ≤ 600 := by
  show ((pyStrip log).data.drop ((pyStrip log).data.length - 600)).length ≤ 600
  rw [List.length_drop]
  omega

set_option maxRecDepth 4000 in
theorem trim_log_within (log : String) : (trim_log log).data <:+: log.data := by
  show (pyStrip log).data.drop ((pyStrip log).data.length - 600) <:+: log.data
  exact (List.drop_suffix _ _).isInfix.trans (pyStrip_within log)

theorem takeChars_length_le (n : ℕ) (s : String) : (takeChars n s).length ≤ n := by
  show (s.data.take n).length ≤ n
  simp

theorem takeChars_strip_within (n : ℕ) (s : String) :
    (takeChars n (pyStrip s)).data <:+: s.data := by
  show (pyStrip s).data.take n <:+: s.data
  exact (List.take_prefix _ _).isInfix.trans (pyStrip_within s)

/-! ## C1: which JSON span does `parse_loudnorm_json` extract? -/

/-- C1 (amended): `parse_loudnorm_json` extracts the span running from the
LAST `\x7b` of the diagnostic text to its last `\x7d` and JSON-parses exactly
that substring.  The decomposition hypotheses pin those two positions:
no `\x7b` occurs after the shown one and no `\x7d` after the shown one. -/
theorem C1_parse_loudnorm_extracts_last_brace_span
    (s : String) (pre mid post : List Char)
    (hs : s.data = pre ++ '{' :: (mid ++ '}' :: post))
    (hmid : '{' ∉ mid) (hpost1 : '{' ∉ post) (hpost2 : '}' ∉ post) :
    parse_loudnorm_json s = json_loads (String.mk ('{' :: (mid ++ ['}']))) := by
  have hbne : ('{' : Char) ≠ '}' := by decide
  have hopen : pyRfind s.data '{' = some pre.length := by
    rw [hs]
    exact pyRfind_append_last pre (mid ++ '}' :: post) '{' (by
      intro hmem
      rcases List.mem_append.mp hmem with h | h
      · exact hmid h
      · rcases List.mem_cons.mp h with h | h
        · exact hbne h
        · exact hpost1 h)
  have hclose : pyRfind s.data '}' = some (pre.length + mid.length + 1) := by
    have hs2 : s.data = (pre ++ '{' :: mid) ++ '}' :: post := by
      rw [hs]; simp
    rw [hs2]
    have := pyRfind_append_last (pre ++ '{' :: mid) post '}' hpost2
    simpa [List.length_append] using this
  have hlt : ¬ (pre.length + mid.length + 1 ≤ pre.length) := by omega
  have hred : parse_loudnorm_json s =
      json_loads (String.mk
        ((s.data.drop pre.length).take (pre.length + mid.length + 1 + 1 - pre.length))) := by
    unfold parse_loudnorm_json
    rw [hopen, hclose]
    exact if_neg hlt
  have hdrop : s.data.drop pre.length = '{' :: (mid ++ '}' :: post) := by
    rw [hs]; exact List.drop_left pre _
  have hn : pre.length + mid.length + 1 + 1 - pre.length = mid.length + 2 := by omega
  have htake : ('{' :: (mid ++ '}' :: post)).take (mid.length + 2)
      = '{' :: (mid ++ ['}']) := by
    have hsplit : ('{' :: (mid ++ '}' :: post)) = ('{' :: (mid ++ ['}'])) ++ post := by
      simp
    rw [hsplit]
    have hlen : ('{' :: (mid ++ ['}'])).length = mid.length + 2 := by
      simp
    exact List.take_left' hlen
  rw [hred, hdrop, hn, htake]

/-- C1 witness: the theorem applied to a concrete diagnostic string whose
earlier brace pair is ignored. -/
theorem C1_witness :
    parse_loudnorm_json (String.mk (['{', 'a', '}', ' ']
        ++ '{' :: ("\"k\": \"v\"".data ++ '}' :: []))) =
      json_loads (String.mk ('{' :: ("\"k\": \"v\"".data ++ ['}']))) :=
  C1_parse_loudnorm_extracts_last_brace_span _ ['{', 'a', '}', ' ']
    "\"k\": \"v\"".data [] rfl (by decide) (by decide) (by decide)

/-- Concrete diagnostic text with two complete JSON objects. -/
def exStderrTwo : String := "\x7b\"a\": \"1\"\x7d \x7b\"b\": \"2\"\x7d"

/-- C1 counterexample: on a diagnostic text holding two JSON objects, the
claimed first-`\x7b`-to-last-`\x7d` span is not valid JSON (so the claimed
behaviour raises), while the code parses the object after the LAST `\x7b`
and succeeds. -/
theorem C1_counterexample :
    parse_loudnorm_json_claimed exStderrTwo = .error "Extra data" ∧
    parse_loudnorm_json exStderrTwo = .ok (.jobj [("b", .jstr "2")]) :=
  ⟨rfl, rfl⟩

/-! ## C2: shape of the filter chain (modelled intent; the shipped line is
a SyntaxError, see `filter_list`) -/

/-- C2: the chain is the comma-join of the filter list; the list is the
optional volume filter followed by exactly acompressor, bass, treble,
alimiter; the volume filter is present exactly when `input_trim_db` is
truthy (nonzero) and `abs` of it exceeds `0.01`; and each filter string
carries its filter name. -/
theorem C2_filter_chain_order (args : MasterArgs) :
    ((args.input_trim_db ≠ 0 ∧ |args.input_trim_db| > 0.01) →
      filter_list args = [volume_filter args, acompressor_filter args, bass_filter args,
        treble_filter args, alimiter_filter args]) ∧
    (¬ (args.input_trim_db ≠ 0 ∧ |args.input_trim_db| > 0.01) →
      filter_list args = [acompressor_filter args, bass_filter args, treble_filter args,
        alimiter_filter args]) ∧
    build_filter_chain args = String.intercalate "," (filter_list args) ∧
    (∃ r, volume_filter args = "volume=" ++ r) ∧
    (∃ r, acompressor_filter args = "acompressor=" ++ r) ∧
    (∃ r, bass_filter args = "bass=" ++ r) ∧
    (∃ r, treble_filter args = "treble=" ++ r) ∧
    (∃ r, alimiter_filter args = "alimiter=" ++ r) := by
  refine ⟨?_, ?_, rfl, ?_, ?_, ?_, ?_, ?_⟩
  · rintro ⟨h1, h2⟩
    unfold filter_list
    rw [if_pos h1, if_pos h2]
    rfl
  · intro h
    unfold filter_list
    by_cases h1 : args.input_trim_db ≠ 0
    · have h2 : ¬ |args.input_trim_db| > 0.01 := fun hh => h ⟨h1, hh⟩
      rw [if_pos h1, if_neg h2]
      rfl
    · rw [if_neg h1]
      rfl
  · exact ⟨_, by
      unfold volume_filter
      rw [String.append_assoc]⟩
  · refine ⟨"threshold=" ++ (fmtFixed 6 (db_to_amplitude args.comp_threshold) ++
      (":ratio=" ++ (fmtFixed 3 (comp_ratio_val args) ++ (":attack=" ++
      (fmtFixed 4 (comp_attack_val args) ++ (":release=" ++
      (fmtFixed 4 (comp_release_val args) ++ ":makeup=0.0:knee=2.0"))))))), ?_⟩
    unfold acompressor_filter
    rw [show ("acompressor=threshold=" : String) = "acompressor=" ++ "threshold=" from rfl]
    simp only [String.append_assoc]
  · refine ⟨"g=" ++ (fmtFixed 2 args.eq_low_db ++ (":f=" ++
      (fmtFixed 1 (eq_low_hz_val args) ++ (":width_type=q:width=" ++
      fmtFixed 3 (eq_low_q_val args))))), ?_⟩
    unfold bass_filter
    rw [show ("bass=g=" : String) = "bass=" ++ "g=" from rfl]
    simp only [String.append_assoc]
  · refine ⟨"g=" ++ (fmtFixed 2 args.eq_high_db ++ (":f=" ++
      (fmtFixed 1 (eq_high_hz_val args) ++ (":width_type=q:width=" ++
      fmtFixed 3 (eq_high_q_val args))))), ?_⟩
    unfold treble_filter
    rw [show ("treble=g=" : String) = "treble=" ++ "g=" from rfl]
    simp only [String.append_assoc]
  · refine ⟨"limit=" ++ (fmtFixed 6 (db_to_amplitude args.limiter_ceiling) ++
      (":level=1.0:attack=0.001:release=" ++ fmtFixed 4 (limiter_release_val args))), ?_⟩
    unfold alimiter_filter
    rw [show ("alimiter=limit=" : String) = "alimiter=" ++ "limit=" from rfl]
    simp only [String.append_assoc]

/-- The argparse defaults of the `master` sub-command, with a one-dB input
trim so the volume gate is open. -/
noncomputable def trimArgs : MasterArgs :=
  ⟨"in.wav", "out.wav", -14.0, -1.0, 1.0, -13.0, 1.6, 12.0, 80.0, 120.0, -0.8, 0.7,
   3500.0, 0.6, 0.7, -1.0, 1.0, 40.0, "streaming", "Streaming Default"⟩

/-- C2 witness: with a 1 dB trim the volume filter leads the chain. -/
theorem C2_witness :
    filter_list trimArgs = [volume_filter trimArgs, acompressor_filter trimArgs,
      bass_filter trimArgs, treble_filter trimArgs, alimiter_filter trimArgs] :=
  (C2_filter_chain_order trimArgs).1
    ⟨by norm_num [trimArgs], by norm_num [trimArgs]⟩

/-! ## C4: unit conversions feeding the format slots -/

/-- C4 (amended): the dB knobs are converted by `10 ^ (v / 20)` and then
floored at `1e-6`; the millisecond knobs are divided by `1000` and then
floored at `0.001` (compressor attack) resp. `0.005` (both releases);
those are exactly the values the chain formats. -/
theorem C4_unit_conversions (args : MasterArgs) :
    acompressor_filter args =
      "acompressor=threshold=" ++ fmtFixed 6 (max ((10 : ℝ) ^ (args.comp_threshold / 20)) 1e-6) ++
      ":ratio=" ++ fmtFixed 3 (max args.comp_ratio 1.0) ++
      ":attack=" ++ fmtFixed 4 (max (args.attack / 1000) 0.001) ++
      ":release=" ++ fmtFixed 4 (max (args.release / 1000) 0.005) ++
      ":makeup=0.0:knee=2.0" ∧
    alimiter_filter args =
      "alimiter=limit=" ++ fmtFixed 6 (max ((10 : ℝ) ^ (args.limiter_ceiling / 20)) 1e-6) ++
      ":level=1.0:attack=0.001:release=" ++ fmtFixed 4 (max (args.limiter_release / 1000) 0.005) :=
  ⟨rfl, rfl⟩

/-- Default master arguments with a 0.1 ms compressor attack. -/
noncomputable def shortAttackArgs : MasterArgs :=
  ⟨"in.wav", "out.wav", -14.0, -1.0, 0.0, -13.0, 1.6, 0.1, 80.0, 120.0, -0.8, 0.7,
   3500.0, 0.6, 0.7, -1.0, 1.0, 40.0, "streaming", "Streaming Default"⟩

/-- C4 counterexample: at a 0.1 ms attack the formatted attack value is
the floored `0.001`, not `attack / 1000` — the claimed plain division by
1000 is not what reaches the filter string. -/
theorem C4_counterexample :
    fmtFixed 4 (comp_attack_val shortAttackArgs) ≠
      fmtFixed 4 (shortAttackArgs.attack / 1000) := by
  have h1 : comp_attack_val shortAttackArgs = 0.001 := by
    show max ((0.1 : ℝ) / 1000) 0.001 = 0.001
    rw [max_eq_right]
    norm_num
  have h2 : shortAttackArgs.attack / 1000 = (0.0001 : ℝ) := by
    show (0.1 : ℝ) / 1000 = 0.0001
    norm_num
  rw [h1, h2]
  unfold fmtFixed
  have r1 : (0.001 : ℝ) * (10 : ℝ) ^ (4 : ℕ) = ((10 : ℤ) : ℝ) := by push_cast; norm_num
  have r2 : (0.0001 : ℝ) * (10 : ℝ) ^ (4 : ℕ) = ((1 : ℤ) : ℝ) := by push_cast; norm_num
  rw [r1, r2, round_intCast, round_intCast]
  decide

/-! ## C8: the chain is a function of the numeric knobs alone -/

/-- C8: two parameter records agreeing on the thirteen knobs the chain
reads produce character-for-character equal filter-graph strings (in
particular, paths, platform and profile labels play no part). -/
theorem C8_chain_deterministic (a b : MasterArgs)
    (h1 : a.input_trim_db = b.input_trim_db)
    (h2 : a.comp_threshold = b.comp_threshold)
    (h3 : a.comp_ratio = b.comp_ratio)
    (h4 : a.attack = b.attack)
    (h5 : a.release = b.release)
    (h6 : a.eq_low_hz = b.eq_low_hz)
    (h7 : a.eq_low_db = b.eq_low_db)
    (h8 : a.eq_low_q = b.eq_low_q)
    (h9 : a.eq_high_hz = b.eq_high_hz)
    (h10 : a.eq_high_db = b.eq_high_db)
    (h11 : a.eq_high_q = b.eq_high_q)
    (h12 : a.limiter_ceiling = b.limiter_ceiling)
    (h13 : a.limiter_release = b.limiter_release) :
    build_filter_chain a = build_filter_chain b := by
  unfold build_filter_chain filter_list volume_filter acompressor_filter bass_filter
    treble_filter alimiter_filter comp_ratio_val comp_attack_val comp_release_val
    eq_low_hz_val eq_low_q_val eq_high_hz_val eq_high_q_val limiter_release_val
  rw [h1, h2, h3, h4, h5, h6, h7, h8, h9, h10, h11, h12, h13]

/-- The argparse defaults of the `master` sub-command. -/
noncomputable def defaultArgs : MasterArgs :=
  ⟨"in.wav", "out.wav", -14.0, -1.0, 0.0, -13.0, 1.6, 12.0, 80.0, 120.0, -0.8, 0.7,
   3500.0, 0.6, 0.7, -1.0, 1.0, 40.0, "streaming", "Streaming Default"⟩

/-- The same knobs under different file and label fields. -/
noncomputable def defaultArgsRelabelled : MasterArgs :=
  ⟨"elsewhere.wav", "exported.wav", -14.0, -1.0, 0.0, -13.0, 1.6, 12.0, 80.0, 120.0, -0.8,
   0.7, 3500.0, 0.6, 0.7, -1.0, 1.0, 40.0, "club", "Club Master"⟩

/-- C8 witness: changing only paths and labels leaves the chain equal. -/
theorem C8_witness :
    build_filter_chain defaultArgs = build_filter_chain defaultArgsRelabelled :=
  C8_chain_deterministic _ _ rfl rfl rfl rfl rfl rfl rfl rfl rfl rfl rfl rfl rfl

/-! ## C9: the formatted values respect their floors -/

/-- C9: whatever the command-line knobs, every clamped value the chain
formats sits at or above its floor. -/
theorem C9_formatted_value_bounds (args : MasterArgs) :
    1.0 ≤ comp_ratio_val args ∧
    20.0 ≤ eq_low_hz_val args ∧
    200.0 ≤ eq_high_hz_val args ∧
    0.1 ≤ eq_low_q_val args ∧
    0.1 ≤ eq_high_q_val args ∧
    0.001 ≤ comp_attack_val args ∧
    0.005 ≤ comp_release_val args ∧
    0.005 ≤ limiter_release_val args ∧
    1e-6 ≤ db_to_amplitude args.comp_threshold ∧
    1e-6 ≤ db_to_amplitude args.limiter_ceiling :=
  ⟨le_max_right _ _, le_max_right _ _, le_max_right _ _, le_max_right _ _,
   le_max_right _ _, le_max_right _ _, le_max_right _ _, le_max_right _ _,
   le_max_right _ _, le_max_right _ _⟩

/-! ## C10: totality of `safe_float` -/

/-- C10: `safe_float` converts ints, floats and bools, parses numeric
strings through the `float()` grammar, and yields `none` (never raising)
on `None`, containers and malformed strings. -/
theorem C10_safe_float_total :
    (∀ n : ℤ, safe_float (.jint n) = some (n : ℚ)) ∧
    (∀ q : ℚ, safe_float (.jfloat q) = some q) ∧
    (∀ b : Bool, safe_float (.jbool b) = some (if b then 1 else 0)) ∧
    safe_float .jnull = none ∧
    (∀ xs, safe_float (.jarr xs) = none) ∧
    (∀ kvs, safe_float (.jobj kvs) = none) ∧
    (∀ s : String, safe_float (.jstr s) = pyFloatOfString s) ∧
    safe_float (.jstr "-23.01") = some (-2301 / 100) ∧
    safe_float (.jstr "twelve") = none := by
  refine ⟨fun n => rfl, fun q => rfl, fun b => rfl, rfl, fun xs => rfl, fun kvs => rfl,
    fun s => ?_, by with_unfolding_all rfl, by with_unfolding_all rfl⟩
  rcases hh : pyFloatOfString s with _ | q <;>
    simp [safe_float, pyFloat, hh, Except.toOption]

/-! ## Inversion lemmas for the measurement pipeline -/

theorem probe_stream_fail (w : World) (p : String)
    (h : (w.run (probe_cmd p)).returncode ≠ 0) :
    probe_stream w p =
      (.error ("ffprobe failed for " ++ p ++ ": " ++ trim_log (w.run (probe_cmd p)).stderr),
       [probe_cmd p]) := by
  unfold probe_stream
  rw [if_pos h]

theorem probe_stream_run (w : World) (p : String)
    (h : ¬ (w.run (probe_cmd p)).returncode ≠ 0) :
    probe_stream w p =
      (match json_loads (if (w.run (probe_cmd p)).stdout = "" then "\x7b\x7d"
          else (w.run (probe_cmd p)).stdout) with
       | .error e => (.error e, [probe_cmd p])
       | .ok data => (first_stream data, [probe_cmd p])) := by
  unfold probe_stream
  rw [if_neg h]

theorem probe_stream_trace (w : World) (p : String) :
    (probe_stream w p).2 = [probe_cmd p] := by
  by_cases h : (w.run (probe_cmd p)).returncode ≠ 0
  · rw [probe_stream_fail w p h]
  · rw [probe_stream_run w p h]
    rcases json_loads (if (w.run (probe_cmd p)).stdout = "" then "\x7b\x7d"
        else (w.run (probe_cmd p)).stdout) with e | data <;> rfl

theorem measure_audio_rc_ne (w : World) (p tag : String)
    (h : (w.run (loudnorm_cmd p)).returncode ≠ 0) :
    measure_audio w p tag =
      (.error ("ffmpeg loudnorm failed: " ++ trim_log (w.run (loudnorm_cmd p)).stderr),
       [loudnorm_cmd p]) := by
  unfold measure_audio
  rw [if_pos h]

theorem measure_audio_parse_fail (w : World) (p tag : String)
    (h0 : ¬ (w.run (loudnorm_cmd p)).returncode ≠ 0) (e : String)
    (hp : parse_loudnorm_json (w.run (loudnorm_cmd p)).stderr = .error e) :
    measure_audio w p tag = (.error e, [loudnorm_cmd p]) := by
  unfold measure_audio
  rw [if_neg h0, hp]

theorem measure_audio_probe_step (w : World) (p tag : String)
    (h0 : ¬ (w.run (loudnorm_cmd p)).returncode ≠ 0)
    (stats : JValue) (hp : parse_loudnorm_json (w.run (loudnorm_cmd p)).stderr = .ok stats)
    (res : Except String JValue) (t : Trace) (hps : probe_stream w p = (res, t)) :
    measure_audio w p tag =
      ((match res with
        | .error e => .error e
        | .ok probe => metrics_from stats probe p tag), loudnorm_cmd p :: t) := by
  unfold measure_audio
  rw [if_neg h0, hp]
  simp only [hps]
  cases res <;> rfl

/-- A successful `measure_audio` run factors through a parsed stats
object, a probed stream and `metrics_from`. -/
theorem measure_audio_ok_inv (w : World) (path tag : String) (m : Metrics) (tr : Trace)
    (hm : measure_audio w path tag = (.ok m, tr)) :
    ∃ stats probe ptr,
      parse_loudnorm_json (w.run (loudnorm_cmd path)).stderr = .ok stats ∧
      probe_stream w path = (.ok probe, ptr) ∧
      metrics_from stats probe path tag = .ok m := by
  by_cases h1 : (w.run (loudnorm_cmd path)).returncode ≠ 0
  · rw [measure_audio_rc_ne w path tag h1] at hm
    exact absurd (congrArg Prod.fst hm) (by simp)
  · rcases hpj : parse_loudnorm_json (w.run (loudnorm_cmd path)).stderr with e | stats
    · rw [measure_audio_parse_fail w path tag h1 e hpj] at hm
      exact absurd (congrArg Prod.fst hm) (by simp)
    · rcases hps : probe_stream w path with ⟨pres, ptr⟩
      rw [measure_audio_probe_step w path tag h1 stats hpj pres ptr hps] at hm
      cases pres with
      | error e => exact absurd (congrArg Prod.fst hm) (by simp)
      | ok probe =>
        refine ⟨stats, probe, ptr, rfl, rfl, ?_⟩
        simpa using congrArg Prod.fst hm

/-- What the fields of a successfully built metrics record are. -/
theorem metrics_from_inv (stats probe : JValue) (path tag : String) (m : Metrics)
    (h : metrics_from stats probe path tag = .ok m) :
    ∃ vI vT, py_get stats "input_i" = .ok vI ∧ py_get stats "input_tp" = .ok vT ∧
      m.lufs = (safe_float vI).map pyRound1 ∧
      m.truePeak = (safe_float vT).map pyRound1 ∧
      m.crest = (match safe_float vI, safe_float vT with
        | some l, some t => some (pyRound1 (t - l))
        | _, _ => none) ∧
      m.notes = tag ++ " metrics via ffmpeg loudnorm (" ++ basename path ++ ")" ∧
      (jTruthy probe = false → m.sampleRate = none ∧ m.bitDepth = none) ∧
      (∀ sr, py_get probe "sample_rate" = .ok sr → jTruthy sr = false →
        m.sampleRate = none) ∧
      (∀ bd, jTruthy probe = true → resolve_bit_depth probe = .ok bd → m.bitDepth = bd) := by
  unfold metrics_from at h
  split at h
  · exact absurd h (by simp)
  · rename_i vI hI
    split at h
    · exact absurd h (by simp)
    · rename_i vT hT
      split at h
      · rename_i hpt
        split at h
        · exact absurd h (by simp)
        · rename_i sr hsr
          split at h
          · exact absurd h (by simp)
          · rename_i srate hsrate
            split at h
            · exact absurd h (by simp)
            · rename_i bd hbd
              injection h with h
              subst h
              refine ⟨vI, vT, hI, hT, rfl, rfl, rfl, rfl, ?_, ?_, ?_⟩
              · intro hf
                rw [hf] at hpt
                exact absurd hpt (by simp)
              · intro sr' hsr' hsrf
                rw [hsr] at hsr'
                injection hsr' with hsr'
                subst hsr'
                have hnone : srate = none := by
                  rw [hsrf] at hsrate
                  simpa using hsrate.symm
                simp [hnone]
              · intro bd' _ hbd'
                rw [hbd] at hbd'
                exact Except.ok.inj hbd'
      · rename_i hpt
        injection h with h
        subst h
        refine ⟨vI, vT, hI, hT, rfl, rfl, rfl, rfl, fun _ => ⟨rfl, rfl⟩, fun _ _ _ => rfl, ?_⟩
        intro bd' hpt' _
        exact absurd hpt' hpt

/-! ## C5: the crest field -/

/-- C5: in every successful measurement, `crest` is the true peak minus
the LUFS rounded to one decimal when both loudnorm fields parse, and
`None` when either is missing or unparseable. -/
theorem C5_crest_field (w : World) (path tag : String) (m : Metrics) (tr : Trace)
    (hm : measure_audio w path tag = (.ok m, tr))
    (stats : JValue)
    (hstats : parse_loudnorm_json (w.run (loudnorm_cmd path)).stderr = .ok stats)
    (vI vT : JValue)
    (hvI : py_get stats "input_i" = .ok vI)
    (hvT : py_get stats "input_tp" = .ok vT) :
    (∀ l t : ℚ, safe_float vI = some l → safe_float vT = some t →
      m.crest = some (pyRound1 (t - l))) ∧
    ((safe_float vI = none ∨ safe_float vT = none) → m.crest = none) := by
  obtain ⟨stats', probe, ptr, hs', _, hmf⟩ := measure_audio_ok_inv w path tag m tr hm
  rw [hstats] at hs'
  injection hs' with hs'
  subst hs'
  obtain ⟨vI', vT', hI', hT', _, _, hcrest, _, _, _, _⟩ :=
    metrics_from_inv stats probe path tag m hmf
  rw [hvI] at hI'
  injection hI' with hI'
  subst hI'
  rw [hvT] at hT'
  injection hT' with hT'
  subst hT'
  constructor
  · intro l t hl ht
    rw [hcrest, hl, ht]
  · intro hnone
    rw [hcrest]
    rcases hnone with hn | hn
    · rw [hn]
    · rw [hn]
      rcases h2 : safe_float vI with _ | l <;> rfl

/-! ## Concrete worlds for witnesses and counterexamples -/

/-- loudnorm diagnostic text for the nominal world. -/
def exLoudOut : String := "junk \x7b\"input_i\": \"-20.0\", \"input_tp\": \"-1.0\"\x7d"

/-- ffprobe stdout for the nominal world. -/
def exProbeGood : String :=
  "\x7b\"streams\": [\x7b\"sample_rate\": \"44100\", \"bits_per_sample\": 24\x7d]\x7d"

/-- A world in which both binaries behave: ffprobe invocations answer the
probe JSON, ffmpeg invocations answer the loudnorm diagnostic. -/
def wGood : World :=
  ⟨fun _ => true, fun cmd =>
    if cmd.head? = some FFPROBE_BIN then ⟨0, exProbeGood, ""⟩ else ⟨0, "", exLoudOut⟩⟩

/-- The metrics record `measure_audio` emits in `wGood`. -/
def mGood : Metrics :=
  ⟨some (-20), some (-1), some 19, some (441 / 10), some "24-bit",
   "analyze metrics via ffmpeg loudnorm (in.wav)"⟩

/-- The parsed loudnorm stats object in `wGood`. -/
def statsGood : JValue :=
  .jobj [("input_i", .jstr "-20.0"), ("input_tp", .jstr "-1.0")]

/-- C5 witness: in the nominal world the crest field is the rounded
difference of the two parsed values. -/
theorem C5_witness : mGood.crest = some (pyRound1 ((-1 : ℚ) - (-20))) :=
  (C5_crest_field wGood "in.wav" "analyze" mGood
      [loudnorm_cmd "in.wav", probe_cmd "in.wav"] (by with_unfolding_all rfl)
      statsGood (by with_unfolding_all rfl)
      (.jstr "-20.0") (.jstr "-1.0") (by with_unfolding_all rfl) (by with_unfolding_all rfl)).1
    (-20) (-1) (by with_unfolding_all rfl) (by with_unfolding_all rfl)

/-! ## C6: the metrics record -/

/-- C6 (amended): a successful measurement yields the six-field record;
`lufs`, `truePeak` and `crest` degrade to `None` when their loudnorm
fields are missing or unparseable, `sampleRate` and `bitDepth` degrade to
`None` when the probe record is empty or their fields are missing or
falsy — but (see the counterexample) a truthy non-numeric `sample_rate`
aborts the measurement instead. -/
theorem C6_metrics_fields (w : World) (path tag : String) (m : Metrics) (tr : Trace)
    (hm : measure_audio w path tag = (.ok m, tr)) :
    ∃ stats vI vT probe ptr,
      parse_loudnorm_json (w.run (loudnorm_cmd path)).stderr = .ok stats ∧
      py_get stats "input_i" = .ok vI ∧
      py_get stats "input_tp" = .ok vT ∧
      probe_stream w path = (.ok probe, ptr) ∧
      m.notes = tag ++ " metrics via ffmpeg loudnorm (" ++ basename path ++ ")" ∧
      (safe_float vI = none → m.lufs = none) ∧
      (safe_float vT = none → m.truePeak = none) ∧
      (safe_float vI = none ∨ safe_float vT = none → m.crest = none) ∧
      (jTruthy probe = false → m.sampleRate = none ∧ m.bitDepth = none) ∧
      (∀ sr, py_get probe "sample_rate" = .ok sr → jTruthy sr = false →
        m.sampleRate = none) ∧
      (∀ bd, jTruthy probe = true → resolve_bit_depth probe = .ok bd → m.bitDepth = bd) := by
  obtain ⟨stats, probe, ptr, hs, hp, hmf⟩ := measure_audio_ok_inv w path tag m tr hm
  obtain ⟨vI, vT, hI, hT, hlufs, htp, hcrest, hnotes, hsrf, hsrm, hbd⟩ :=
    metrics_from_inv stats probe path tag m hmf
  refine ⟨stats, vI, vT, probe, ptr, hs, hI, hT, hp, hnotes, ?_, ?_, ?_, hsrf, hsrm, hbd⟩
  · intro hn
    rw [hlufs, hn]
    rfl
  · intro hn
    rw [htp, hn]
    rfl
  · intro hn
    rw [hcrest]
    rcases hn with hn | hn
    · rw [hn]
    · rw [hn]
      rcases h2 : safe_float vI with _ | l <;> rfl

/-- loudnorm diagnostic text missing the true-peak field. -/
def exLoudNoTp : String := "junk \x7b\"input_i\": \"-20.0\"\x7d"

/-- The nominal world with the true-peak field absent. -/
def wNoTp : World :=
  ⟨fun _ => true, fun cmd =>
    if cmd.head? = some FFPROBE_BIN then ⟨0, exProbeGood, ""⟩ else ⟨0, "", exLoudNoTp⟩⟩

/-- The metrics record `measure_audio` emits in `wNoTp`. -/
def mNoTp : Metrics :=
  ⟨some (-20), none, none, some (441 / 10), some "24-bit",
   "analyze metrics via ffmpeg loudnorm (in.wav)"⟩

/-- C6 witness: a missing loudnorm field degrades `crest` to `None`
without failing the measurement. -/
theorem C6_witness : mNoTp.crest = none := by
  obtain ⟨stats, vI, vT, probe, ptr, hs, hI, hT, hp, hnotes, hl, htp, hc, _⟩ :=
    C6_metrics_fields wNoTp "in.wav" "analyze" mNoTp
      [loudnorm_cmd "in.wav", probe_cmd "in.wav"] (by with_unfolding_all rfl)
  have hstats : stats = .jobj [("input_i", .jstr "-20.0")] := by
    have hs2 : parse_loudnorm_json (wNoTp.run (loudnorm_cmd "in.wav")).stderr =
        .ok (.jobj [("input_i", .jstr "-20.0")]) := by with_unfolding_all rfl
    rw [hs2] at hs
    injection hs with hs
    exact hs.symm
  subst hstats
  have hvT : vT = .jnull := by
    have : py_get (JValue.jobj [("input_i", .jstr "-20.0")]) "input_tp" = .ok .jnull := by
      with_unfolding_all rfl
    rw [this] at hT
    injection hT with hT
    exact hT.symm
  subst hvT
  exact hc (Or.inr rfl)

/-- ffprobe stdout carrying a truthy but non-numeric sample rate. -/
def exProbeBadSr : String := "\x7b\"streams\": [\x7b\"sample_rate\": \"x\"\x7d]\x7d"

/-- The nominal world with a malformed probe sample rate. -/
def wBadSr : World :=
  ⟨fun _ => true, fun cmd =>
    if cmd.head? = some FFPROBE_BIN then ⟨0, exProbeBadSr, ""⟩ else ⟨0, "", exLoudOut⟩⟩

/-- C6 counterexample: when ffprobe reports a non-empty, non-numeric
sample rate, `float(sr)` raises and the whole measurement fails instead
of reporting a `None` sampleRate. -/
theorem C6_counterexample :
    (measure_audio wBadSr "in.wav" "analyze").1 =
      .error "ValueError: could not convert string to float: x" := by
  with_unfolding_all rfl

/-! ## Lemmas on the main flows -/

theorem measure_audio_trace (w : World) (p tag : String) :
    (measure_audio w p tag).2 = [loudnorm_cmd p] ∨
    (measure_audio w p tag).2 = [loudnorm_cmd p, probe_cmd p] := by
  by_cases h1 : (w.run (loudnorm_cmd p)).returncode ≠ 0
  · left
    rw [measure_audio_rc_ne w p tag h1]
  · rcases hpj : parse_loudnorm_json (w.run (loudnorm_cmd p)).stderr with e | stats
    · left
      rw [measure_audio_parse_fail w p tag h1 e hpj]
    · rcases hps : probe_stream w p with ⟨res, t⟩
      have ht : t = [probe_cmd p] := by
        have hh := probe_stream_trace w p
        rw [hps] at hh
        simpa using hh
      subst ht
      right
      rw [measure_audio_probe_step w p tag h1 stats hpj res _ hps]

/-- Whenever a command in `measure_audio`'s trace failed, the measurement
stops at that command (the trace ends there) and raises a message whose
diagnostic tail is at most 600 characters of that command's stderr. -/
theorem measure_audio_fail_site (w : World) (p tag : String) (cmd : List String)
    (hc : cmd ∈ (measure_audio w p tag).2)
    (hrc : (w.run cmd).returncode ≠ 0) :
    (∃ t', (measure_audio w p tag).2 = t' ++ [cmd]) ∧
    ∃ pre diag, (measure_audio w p tag).1 = .error (pre ++ diag) ∧
      diag.length ≤ 600 ∧ diag.data <:+: (w.run cmd).stderr.data := by
  by_cases h1 : (w.run (loudnorm_cmd p)).returncode ≠ 0
  · have heq := measure_audio_rc_ne w p tag h1
    have hcmd : cmd = loudnorm_cmd p := by
      rw [heq] at hc
      simpa using hc
    subst hcmd
    exact ⟨⟨[], by rw [heq]; rfl⟩, "ffmpeg loudnorm failed: ",
      trim_log (w.run (loudnorm_cmd p)).stderr, by rw [heq], trim_log_length_le _,
      trim_log_within _⟩
  · have h1' : (w.run (loudnorm_cmd p)).returncode = 0 := not_not.mp h1
    rcases hpj : parse_loudnorm_json (w.run (loudnorm_cmd p)).stderr with e | stats
    · have heq := measure_audio_parse_fail w p tag h1 e hpj
      have hcmd : cmd = loudnorm_cmd p := by
        rw [heq] at hc
        simpa using hc
      rw [hcmd] at hrc
      exact absurd h1' hrc
    · rcases hps : probe_stream w p with ⟨res, t⟩
      have ht : t = [probe_cmd p] := by
        have hh := probe_stream_trace w p
        rw [hps] at hh
        simpa using hh
      subst ht
      have heq := measure_audio_probe_step w p tag h1 stats hpj res _ hps
      have hcmd : cmd = loudnorm_cmd p ∨ cmd = probe_cmd p := by
        rw [heq] at hc
        simpa using hc
      rcases hcmd with hcmd | hcmd
      · rw [hcmd] at hrc
        exact absurd h1' hrc
      · subst hcmd
        have hpf := probe_stream_fail w p hrc
        rw [hpf] at hps
        have hres : res = .error ("ffprobe failed for " ++ p ++ ": " ++
            trim_log (w.run (probe_cmd p)).stderr) := by
          have := congrArg Prod.fst hps
          simpa using this.symm
        subst hres
        refine ⟨⟨[loudnorm_cmd p], by rw [heq]; rfl⟩, "ffprobe failed for " ++ p ++ ": ",
          trim_log (w.run (probe_cmd p)).stderr, by rw [heq], trim_log_length_le _,
          trim_log_within _⟩

theorem ensure_binaries_ok (w : World) (h1 : w.which FFMPEG_BIN = true)
    (h2 : w.which FFPROBE_BIN = true) : ensure_binaries w = .ok () := by
  unfold ensure_binaries
  rw [h1, h2]
  rfl

theorem render_master_ok (w : World) (args : MasterArgs)
    (h : (w.run (render_cmd args)).returncode = 0) :
    render_master w args = (.ok (), [render_cmd args]) := by
  unfold render_master
  rw [if_neg (by simp [h])]

theorem render_master_fail (w : World) (args : MasterArgs)
    (h : (w.run (render_cmd args)).returncode ≠ 0) :
    render_master w args =
      (.error ("ffmpeg mastering failed: " ++
         takeChars 600 (pyStrip (w.run (render_cmd args)).stderr)),
       [render_cmd args]) := by
  unfold render_master
  rw [if_pos h]

theorem main_master_render_fail (w : World) (args : MasterArgs)
    (hwb : ensure_binaries w = .ok ())
    (hr : (w.run (render_cmd args)).returncode ≠ 0) :
    main_master w args =
      (fail_outcome ("ffmpeg mastering failed: " ++
         takeChars 600 (pyStrip (w.run (render_cmd args)).stderr)),
       [render_cmd args]) := by
  unfold main_master
  rw [hwb]
  simp only [render_master_fail w args hr]

theorem main_master_measure_err (w : World) (args : MasterArgs)
    (hwb : ensure_binaries w = .ok ())
    (hr : ¬ (w.run (render_cmd args)).returncode ≠ 0)
    (e : String) (t1 : Trace)
    (hme : measure_audio w args.output_file "mastered" = (.error e, t1)) :
    main_master w args = (fail_outcome e, render_cmd args :: t1) := by
  unfold main_master
  rw [hwb]
  simp only [render_master_ok w args (not_not.mp hr), hme]
  rfl

theorem main_master_trace_ok_render (w : World) (args : MasterArgs)
    (hwb : ensure_binaries w = .ok ())
    (hr : ¬ (w.run (render_cmd args)).returncode ≠ 0)
    (res : Except String Metrics) (t1 : Trace)
    (hme : measure_audio w args.output_file "mastered" = (res, t1)) :
    (main_master w args).2 = render_cmd args :: t1 := by
  unfold main_master
  rw [hwb]
  simp only [render_master_ok w args (not_not.mp hr), hme]
  cases res <;> rfl

theorem main_master_fail_site (w : World) (args : MasterArgs) (cmd : List String)
    (hc : cmd ∈ (main_master w args).2)
    (hrc : (w.run cmd).returncode ≠ 0) :
    (main_master w args).1.exitCode = 1 ∧ (main_master w args).1.stdout = [] ∧
    (∃ t', (main_master w args).2 = t' ++ [cmd]) ∧
    ∃ pre diag, (main_master w args).1.stderr = [pre ++ diag] ∧ diag.length ≤ 600 ∧
      diag.data <:+: (w.run cmd).stderr.data := by
  rcases hwb : ensure_binaries w with e | u
  · have htr : (main_master w args).2 = [] := by
      unfold main_master
      rw [hwb]
    rw [htr] at hc
    exact absurd hc (List.not_mem_nil _)
  · cases u
    by_cases hr : (w.run (render_cmd args)).returncode ≠ 0
    · have heq := main_master_render_fail w args hwb hr
      have hcmd : cmd = render_cmd args := by
        rw [heq] at hc
        simpa using hc
      subst hcmd
      rw [heq]
      refine ⟨rfl, rfl, ⟨[], rfl⟩, "[mastering_cli] " ++ "ffmpeg mastering failed: ",
        takeChars 600 (pyStrip (w.run (render_cmd args)).stderr), ?_,
        takeChars_length_le _ _, takeChars_strip_within _ _⟩
    
      simp only [fail_outcome]
      rw [← String.append_assoc]
    · rcases hme : measure_audio w args.output_file "mastered" with ⟨res, t1⟩
      have htr2 : (main_master w args).2 = render_cmd args :: t1 :=
        main_master_trace_ok_render w args hwb hr res t1 hme
      have hcmd : cmd = render_cmd args ∨ cmd ∈ t1 := by
        rw [htr2] at hc
        simpa using hc
      rcases hcmd with hcmd | hcmd
      · subst hcmd
        exact absurd (not_not.mp hr) hrc
      · have hc1 : cmd ∈ (measure_audio w args.output_file "mastered").2 := by
          rw [hme]
          exact hcmd
        obtain ⟨⟨t', ht'⟩, pre, diag, hres, hlen, hinf⟩ :=
          measure_audio_fail_site w args.output_file "mastered" cmd hc1 hrc
        have hres2 : res = .error (pre ++ diag) := by
          rw [hme] at hres
          simpa using hres
        subst hres2
        have heq := main_master_measure_err w args hwb hr (pre ++ diag) t1 hme
        rw [heq]
        refine ⟨rfl, rfl, ⟨render_cmd args :: t', ?_⟩, "[mastering_cli] " ++ pre, diag,
          ?_, hlen, hinf⟩
        · have ht1 : t1 = t' ++ [cmd] := by
            rw [hme] at ht'
            simpa using ht'
          rw [ht1]
          rfl
        · simp only [fail_outcome]
          rw [← String.append_assoc]

theorem main_analyze_err (w : World) (input tag : String) (e : String) (t : Trace)
    (hwb : ensure_binaries w = .ok ())
    (hme : measure_audio w input tag = (.error e, t)) :
    main_analyze w input tag = (fail_outcome e, t) := by
  unfold main_analyze
  rw [hwb]
  simp only [hme]

theorem main_analyze_trace (w : World) (input tag : String)
    (res : Except String Metrics) (t : Trace)
    (hwb : ensure_binaries w = .ok ())
    (hme : measure_audio w input tag = (res, t)) :
    (main_analyze w input tag).2 = t := by
  unfold main_analyze
  rw [hwb]
  simp only [hme]
  cases res <;> rfl

theorem main_analyze_fail_site (w : World) (input tag : String) (cmd : List String)
    (hc : cmd ∈ (main_analyze w input tag).2)
    (hrc : (w.run cmd).returncode ≠ 0) :
    (main_analyze w input tag).1.exitCode = 1 ∧ (main_analyze w input tag).1.stdout = [] ∧
    (∃ t', (main_analyze w input tag).2 = t' ++ [cmd]) ∧
    ∃ pre diag, (main_analyze w input tag).1.stderr = [pre ++ diag] ∧ diag.length ≤ 600 ∧
      diag.data <:+: (w.run cmd).stderr.data := by
  rcases hwb : ensure_binaries w with e | u
  · have htr : (main_analyze w input tag).2 = [] := by
      unfold main_analyze
      rw [hwb]
    rw [htr] at hc
    exact absurd hc (List.not_mem_nil _)
  · cases u
    rcases hme : measure_audio w input tag with ⟨res, t⟩
    have htr2 : (main_analyze w input tag).2 = t :=
      main_analyze_trace w input tag res t hwb hme
    have hc1 : cmd ∈ (measure_audio w input tag).2 := by
      rw [hme]
      rw [htr2] at hc
      exact hc
    obtain ⟨⟨t', ht'⟩, pre, diag, hres, hlen, hinf⟩ :=
      measure_audio_fail_site w input tag cmd hc1 hrc
    have hres2 : res = .error (pre ++ diag) := by
      rw [hme] at hres
      simpa using hres
    subst hres2
    have heq := main_analyze_err w input tag (pre ++ diag) t hwb hme
    rw [heq]
    refine ⟨rfl, rfl, ⟨t', ?_⟩, "[mastering_cli] " ++ pre, diag, ?_, hlen, hinf⟩
    · have ht1 : t = t' ++ [cmd] := by
        rw [hme] at ht'
        simpa using ht'
      rw [ht1]
    · simp only [fail_outcome]
      rw [← String.append_assoc]

/-! ## C3: a failing subprocess aborts the whole invocation -/

/-- C3: in either mode, whenever a spawned command exits non-zero, the
run exits with status 1, prints nothing to stdout, runs nothing after the
failing command (no retry), and prints to stderr a single message whose
diagnostic tail is at most 600 characters drawn from that command's
stderr. -/
theorem C3_subprocess_failure_aborts (w : World) (args : MasterArgs) (input tag : String) :
    (∀ cmd ∈ (main_master w args).2, (w.run cmd).returncode ≠ 0 →
      (main_master w args).1.exitCode = 1 ∧ (main_master w args).1.stdout = [] ∧
      (∃ t', (main_master w args).2 = t' ++ [cmd]) ∧
      ∃ pre diag, (main_master w args).1.stderr = [pre ++ diag] ∧ diag.length ≤ 600 ∧
        diag.data <:+: (w.run cmd).stderr.data) ∧
    (∀ cmd ∈ (main_analyze w input tag).2, (w.run cmd).returncode ≠ 0 →
      (main_analyze w input tag).1.exitCode = 1 ∧ (main_analyze w input tag).1.stdout = [] ∧
      (∃ t', (main_analyze w input tag).2 = t' ++ [cmd]) ∧
      ∃ pre diag, (main_analyze w input tag).1.stderr = [pre ++ diag] ∧ diag.length ≤ 600 ∧
        diag.data <:+: (w.run cmd).stderr.data) :=
  ⟨fun cmd hc hrc => main_master_fail_site w args cmd hc hrc,
   fun cmd hc hrc => main_analyze_fail_site w input tag cmd hc hrc⟩

/-- A world whose every command fails. -/
def wFail : World := ⟨fun _ => true, fun _ => ⟨1, "", "boom"⟩⟩

/-- C3 witness: with a failing render, master mode exits 1. -/
theorem C3_witness : (main_master wFail defaultArgs).1.exitCode = 1 := by
  have htr : (main_master wFail defaultArgs).2 = [render_cmd defaultArgs] := by
    with_unfolding_all rfl
  exact ((C3_subprocess_failure_aborts wFail defaultArgs "x.wav" "analyze").1
    (render_cmd defaultArgs) (by rw [htr]; exact List.mem_singleton_self _)
    (by simp [wFail])).1

/-! ## C7: the audio binary runs exactly twice on a successful render -/

/-- C7: with both binaries present and a successful render, the ffmpeg
binary appears in the spawn trace exactly as the render call followed by
the loudnorm call — each once, in that order — whatever happens
downstream. -/
theorem C7_ffmpeg_invoked_twice (w : World) (args : MasterArgs)
    (h1 : w.which FFMPEG_BIN = true) (h2 : w.which FFPROBE_BIN = true)
    (h3 : (w.run (render_cmd args)).returncode = 0) :
    ((main_master w args).2.filter (fun c => c.head? == some FFMPEG_BIN)) =
      [render_cmd args, loudnorm_cmd args.output_file] ∧
    render_cmd args ≠ loudnorm_cmd args.output_file := by
  constructor
  · have hwb := ensure_binaries_ok w h1 h2
    rcases hme : measure_audio w args.output_file "mastered" with ⟨res, t1⟩
    have htr2 : (main_master w args).2 = render_cmd args :: t1 :=
      main_master_trace_ok_render w args hwb (by simp [h3]) res t1 hme
    rw [htr2]
    have ht1 : t1 = [loudnorm_cmd args.output_file] ∨
        t1 = [loudnorm_cmd args.output_file, probe_cmd args.output_file] := by
      have hh := measure_audio_trace w args.output_file "mastered"
      rw [hme] at hh
      simpa using hh
    have hrend : ((render_cmd args).head? == some FFMPEG_BIN) = true := by
      rw [show (render_cmd args).head? = some FFMPEG_BIN from rfl]
      decide
    have hloud : ((loudnorm_cmd args.output_file).head? == some FFMPEG_BIN) = true := by
      rw [show (loudnorm_cmd args.output_file).head? = some FFMPEG_BIN from rfl]
      decide
    have hprobe : ((probe_cmd args.output_file).head? == some FFMPEG_BIN) = false := by
      rw [show (probe_cmd args.output_file).head? = some FFPROBE_BIN from rfl]
      decide
    rcases ht1 with ht1 | ht1 <;> subst ht1 <;>
      simp [List.filter_cons, hrend, hloud, hprobe]
  · intro hh
    have hlen := congrArg List.length hh
    simp [render_cmd, loudnorm_cmd] at hlen

/-- A world in which every command succeeds silently. -/
def wQuiet : World := ⟨fun _ => true, fun _ => ⟨0, "", ""⟩⟩

/-- C7 witness: the filtered trace of a successful render holds exactly
the render and loudnorm calls. -/
theorem C7_witness :
    ((main_master wQuiet defaultArgs).2.filter (fun c => c.head? == some FFMPEG_BIN)) =
      [render_cmd defaultArgs, loudnorm_cmd defaultArgs.output_file] :=
  (C7_ffmpeg_invoked_twice wQuiet defaultArgs rfl rfl rfl).1

end MasteringCli
